import Mathlib

/-!
Verification development for the `bty` branding library.

The library provides `Brand<Tag, Inner>`, a zero-cost wrapper holding one
`Inner` value together with a phantom `Tag` type used only at compile time.
A declaration generator (the `brand!` facility in `src/lib.rs`) emits, for
each alias declaration, a unit struct named `Branded<alias>Tag`, an
implementation of the `Tag` trait registering the alias name as the
constant `TAG_NAME`, and a type alias binding the alias name to the
corresponding `Brand` instantiation.  Trait implementations (`Debug`,
`Default`, `PartialEq`, `PartialOrd`, `Ord`, `Hash`, `AsRef`, `AsMut`)
forward to `Inner`.  The serde adapter (`src/serde.rs`) serializes the
inner value directly and deserializes by parsing `Inner` and wrapping; the
sqlx adapter (`src/sqlx.rs`) forwards column type info, encoding and
decoding to `Inner`.

All definitions below are shallow embeddings of that source code.
-/

/-- Model of the `Tag` trait of `src/lib.rs` (lines 159-164): a type class
carrying the constant tag name `TAG_NAME` used by diagnostic formatting. -/
class Tag (T : Type) where
  TAG_NAME : String

/-- Model of `Brand<Tag, Inner>` of `src/lib.rs` (lines 75-79): holds
exactly one `Inner` value; the `tag: PhantomData<Tag>` field has no runtime
content and is modelled by the phantom type parameter `T`. -/
structure Brand (T : Type) (Inner : Type) where
  inner : Inner

/-- Model of `Brand::into_inner` (`src/lib.rs` lines 84-86): returns the
underlying branded value. -/
def Brand.into_inner {T Inner : Type} (b : Brand T Inner) : Inner :=
  b.inner

/-- Model of `Brand::unchecked_from_inner` (`src/lib.rs` lines 95-100):
constructs a branded value from the inner value, with no validation. -/
def Brand.unchecked_from_inner {T Inner : Type} (inner : Inner) : Brand T Inner :=
  { inner := inner }

/-! Model of the declaration generator, the `brand!` facility of
`src/lib.rs` lines 39-61.  Each declaration has the form
`$(#[$attr])* $vis type $tag = $inner ;` and expands, at the level of
generated names and constants, to the items recorded below. -/

/-- One alias declaration accepted by the generator: attached attributes
or documentation, visibility, the alias name, and the underlying type. -/
structure BrandDecl where
  attrs : List String
  vis : String
  tag : String
  innerTy : String

/-- The items emitted by the generator for one declaration, at the level
of names, visibilities and constants. -/
structure GeneratedItems where
  markerName : String
  markerVis : String
  tagNameConst : String
  aliasName : String
  aliasVis : String
  aliasTarget : String
  aliasAttrs : List String

/-- Model of one expansion step of the generator (`src/lib.rs` lines
46-58): the marker unit struct is named `[< Branded $tag Tag >]`, i.e.
`Branded` ++ alias ++ `Tag`, with the visibility of the alias; the `Tag`
implementation registers `TAG_NAME = stringify!($tag)`, i.e. the alias
source identifier itself; the alias binds the requested name, with its
visibility and attributes, to `Brand<[< Branded $tag Tag >], $inner>`. -/
def brandExpand (d : BrandDecl) : GeneratedItems :=
  { markerName := "Branded" ++ d.tag ++ "Tag"
    markerVis := d.vis
    tagNameConst := d.tag
    aliasName := d.tag
    aliasVis := d.vis
    aliasTarget := "Brand<Branded" ++ d.tag ++ "Tag, " ++ d.innerTy ++ ">"
    aliasAttrs := d.attrs }

/-! Concrete instantiation used by the tests of the repository:
`brand!(type TestId = i32);` (`src/lib.rs` lines 168-170). The expansion
produces the unit struct `BrandedTestIdTag`, its `Tag` implementation with
`TAG_NAME = "TestId"`, and the alias `TestId = Brand<BrandedTestIdTag, i32>`.
The claims exercise no arithmetic on `i32`, so its values are carried by
`Int`; the `Debug` formatting of an `i32` is its decimal rendering. -/

/-- Values of the Rust type `i32`, modelled by `Int` (no arithmetic is
performed on them anywhere in the library, so no wraparound can arise). -/
abbrev i32 := Int

/-- The unit struct `BrandedTestIdTag` emitted by the generator for the
declaration `type TestId = i32;`. -/
structure BrandedTestIdTag

instance : Tag BrandedTestIdTag where
  TAG_NAME := "TestId"

/-- The alias `TestId = Brand<BrandedTestIdTag, i32>` emitted by the
generator. -/
abbrev TestId := Brand BrandedTestIdTag i32

/-! Trait forwarding layer, `src/lib.rs` lines 105-157. -/

/-- Model of the `fmt::Debug` trait: a formatter producing the rendered
string. -/
class DebugFmt (A : Type) where
  fmt : A → String

/-- Model of `Formatter::debug_tuple(name).field(x).finish()` in its
non-alternate form with exactly one field, as used by the `Debug`
implementation of `Brand`: renders `name(x)`. -/
def debugTupleFmt (name field : String) : String :=
  name ++ "(" ++ field ++ ")"

/-- Model of `impl fmt::Debug for Brand` (`src/lib.rs` lines 105-113):
renders the tag name followed by the inner value's formatting in
parentheses. -/
instance brandDebugFmt {T Inner : Type} [Tag T] [DebugFmt Inner] :
    DebugFmt (Brand T Inner) where
  fmt b := debugTupleFmt (Tag.TAG_NAME T) (DebugFmt.fmt b.inner)

/-- The `Debug` formatting of an `i32`: its decimal rendering. -/
instance : DebugFmt i32 where
  fmt n := toString n

/-- Model of the `Default` trait. -/
class DefaultC (A : Type) where
  default : A

/-- Model of `impl Default for Brand` (`src/lib.rs` lines 115-119): wraps
the inner default via `unchecked_from_inner`. -/
instance brandDefault {T Inner : Type} [DefaultC Inner] :
    DefaultC (Brand T Inner) where
  default := Brand.unchecked_from_inner DefaultC.default

/-- Model of `impl PartialEq for Brand` (`src/lib.rs` lines 121-125):
`self.inner == other.inner`.  Rust's `PartialEq::eq` is modelled by
`BEq`. -/
instance brandBEq {T Inner : Type} [BEq Inner] : BEq (Brand T Inner) where
  beq a b := a.inner == b.inner

/-- Model of the `PartialOrd` trait: `pcmp` is Rust's `partial_cmp`. -/
class POrd (A : Type) where
  pcmp : A → A → Option Ordering

/-- Rust's `<` operator, defined from `partial_cmp`: `a < b` holds exactly
when `partial_cmp(a, b) == Some(Less)`. -/
def POrd.ltB {A : Type} [POrd A] (a b : A) : Bool :=
  POrd.pcmp a b == some Ordering.lt

/-- Model of `impl PartialOrd for Brand` (`src/lib.rs` lines 129-133):
forwards `partial_cmp` to the inner values. -/
instance brandPOrd {T Inner : Type} [POrd Inner] : POrd (Brand T Inner) where
  pcmp a b := POrd.pcmp a.inner b.inner

/-- Model of the `Ord` trait: `cmp` is a total comparison. -/
class OrdC (A : Type) where
  cmp : A → A → Ordering

/-- Model of `impl Ord for Brand` (`src/lib.rs` lines 135-139): forwards
`cmp` to the inner values. -/
instance brandOrdC {T Inner : Type} [OrdC Inner] : OrdC (Brand T Inner) where
  cmp a b := OrdC.cmp a.inner b.inner

/-- The state of a hasher, modelled as the stream of words written to it. -/
abbrev HState := List Nat

/-- Model of the `Hash` trait: `hashW a st` is the hasher state after
feeding `a` to a hasher in state `st`. -/
class HashC (A : Type) where
  hashW : A → HState → HState

/-- Model of `impl hash::Hash for Brand` (`src/lib.rs` lines 141-145):
`self.inner.hash(state)`, feeding only the inner value to the hasher. -/
instance brandHashC {T Inner : Type} [HashC Inner] : HashC (Brand T Inner) where
  hashW b st := HashC.hashW b.inner st

/-- Model of `impl AsRef<Inner> for Brand` (`src/lib.rs` lines 147-151):
the value read through the borrowed view is the stored inner value. -/
def Brand.as_ref {T Inner : Type} (b : Brand T Inner) : Inner :=
  b.inner

/-- Model of writing the value `x` through the mutable view returned by
`impl AsMut<Inner> for Brand` (`src/lib.rs` lines 153-157): the reference
aliases the `inner` field, so the write replaces that field. -/
def Brand.write_via_as_mut {T Inner : Type} (b : Brand T Inner) (x : Inner) :
    Brand T Inner :=
  { b with inner := x }

/-! Serialization adapter, `src/serde.rs`.  Serializers and wire formats
are external; they are modelled abstractly by a wire word stream and, for
witnesses, by concrete codecs. -/

/-- The wire representation produced by a serializer, as a word stream. -/
abbrev Wire := List Nat

/-- The error type of a deserializer. -/
abbrev DeErr := String

/-- Model of the `Serialize` trait boundary: how a value is written to the
wire. -/
class Ser (A : Type) where
  serialize : A → Wire

/-- Model of the `Deserialize` trait boundary: parsing wire data may fail
with a deserializer error. -/
class De (A : Type) where
  deserialize : Wire → Except DeErr A

/-- Model of `impl Serialize for Brand` (`src/serde.rs` lines 5-15):
`self.inner.serialize(serializer)`, writing exactly what `Inner` writes. -/
instance brandSer {T Inner : Type} [Ser Inner] : Ser (Brand T Inner) where
  serialize b := Ser.serialize b.inner

/-- Model of `impl Deserialize for Brand` (`src/serde.rs` lines 17-27):
`Inner::deserialize(deserializer).map(Self::unchecked_from_inner)`. -/
instance brandDe {T Inner : Type} [De Inner] : De (Brand T Inner) where
  deserialize w := Except.map Brand.unchecked_from_inner (De.deserialize w)

/-! Persistence column codec adapter, `src/sqlx.rs`. -/

/-- A database value reference handed to a decoder, modelled abstractly. -/
abbrev ValueRef := List Nat

/-- The boxed error type `BoxError` of `src/sqlx.rs` line 10, modelled by
its message. -/
abbrev BoxError := String

/-- Model of the sqlx `Type` trait boundary: the column type metadata. -/
class SqlxType (A : Type) where
  type_info : String

/-- Model of the sqlx `Decode` trait boundary. -/
class SqlxDecode (A : Type) where
  decode : ValueRef → Except BoxError A

/-- Model of `impl Type for Brand` (`src/sqlx.rs` lines 12-20):
`Inner::type_info()`, verbatim. -/
instance brandSqlxType {T Inner : Type} [SqlxType Inner] :
    SqlxType (Brand T Inner) where
  type_info := SqlxType.type_info Inner

/-- Model of `impl Decode for Brand` (`src/sqlx.rs` lines 22-31): decode
the inner value, propagating a failure with the `?` operator, then wrap it
with `unchecked_from_inner`. -/
instance brandSqlxDecode {T Inner : Type} [SqlxDecode Inner] :
    SqlxDecode (Brand T Inner) where
  decode v :=
    (SqlxDecode.decode v).bind fun inner => Except.ok (Brand.unchecked_from_inner inner)

/-! Concrete codecs used only to witness the adapter theorems on concrete
inputs. -/

/-- A concrete wire codec for strings: the stream of Unicode code points. -/
instance : Ser String where
  serialize s := s.toList.map Char.toNat

instance : De String where
  deserialize w := Except.ok (String.mk (w.map Char.ofNat))

/-- A concrete fallible codec for booleans, to exercise the error path. -/
instance : De Bool where
  deserialize w :=
    match w with
    | [0] => Except.ok false
    | [1] => Except.ok true
    | _ => Except.error "invalid boolean"

instance : SqlxDecode Bool where
  decode v :=
    match v with
    | [0] => Except.ok false
    | [1] => Except.ok true
    | _ => Except.error "invalid boolean"

/-- Helper: mapping a function over an `Except` result yields an error
exactly when the original result is that error. -/
theorem except_map_error_iff {ε α β : Type} (f : α → β) (r : Except ε α) (e : ε) :
    Except.map f r = Except.error e ↔ r = Except.error e := by
  cases r <;> simp [Except.map]

/-- Helper: binding an `Except` result with an `ok`-producing continuation
yields an error exactly when the original result is that error. -/
theorem except_bind_ok_error_iff {ε α β : Type} (f : α → β) (r : Except ε α) (e : ε) :
    (r.bind fun a => Except.ok (f a)) = Except.error e ↔ r = Except.error e := by
  cases r <;> simp [Except.bind]

/-- The declaration `type TestId = i32;` from the repository tests, as an
input to the generator model. -/
def testIdDecl : BrandDecl :=
  { attrs := [], vis := "", tag := "TestId", innerTy := "i32" }

/-- Claim C1: for every Inner value v, constructing a Brand from v with the
unchecked constructor and then extracting the inner value returns v. -/
theorem c1_unchecked_from_inner_then_into_inner (T Inner : Type) (v : Inner) :
    (Brand.unchecked_from_inner v : Brand T Inner).into_inner = v :=
  rfl

/-- Claim C2, counterexample: for the declaration `type TestId = i32;` the
generator emits a marker named `BrandedTestIdTag`, not `BrandedTestIdMarker`,
so the claimed naming scheme `Branded<Name>Marker` fails. -/
theorem c2_marker_name_counterexample :
    ¬ ((brandExpand testIdDecl).markerName =
        "Branded" ++ testIdDecl.tag ++ "Marker" ∧
       (brandExpand testIdDecl).tagNameConst = testIdDecl.tag) := by
  decide

/-- Claim C2, amended: for every declaration, the emitted marker type is
named deterministically from the alias as `Branded<Name>Tag`, and the
marker is registered with a display name equal to the alias source
identifier. -/
theorem c2_marker_name_and_registration (d : BrandDecl) :
    (brandExpand d).markerName = "Branded" ++ d.tag ++ "Tag" ∧
    (brandExpand d).tagNameConst = d.tag :=
  ⟨rfl, rfl⟩

/-- Claim C3: diagnostic formatting of a Brand value renders exactly as the
registered display name followed by the inner value's own formatting in
parentheses; in particular the `TestId` brand of 10 formats as the string
`TestId(10)`. -/
theorem c3_debug_formatting (T Inner : Type) [Tag T] [DebugFmt Inner] (v : Inner) :
    DebugFmt.fmt (Brand.unchecked_from_inner v : Brand T Inner) =
      Tag.TAG_NAME T ++ "(" ++ DebugFmt.fmt v ++ ")" ∧
    DebugFmt.fmt (Brand.unchecked_from_inner 10 : TestId) = "TestId(10)" :=
  ⟨rfl, rfl⟩

/-- Claim C4: equality and ordering on Brand are the inner relations lifted
pointwise, and the tag plays no role: the comparison result is unchanged
under a different tag type. -/
theorem c4_eq_and_ord_pointwise (T T2 Inner : Type) [BEq Inner] [POrd Inner]
    (v1 v2 : Inner) :
    (((Brand.unchecked_from_inner v1 : Brand T Inner) ==
        Brand.unchecked_from_inner v2) = true ↔ (v1 == v2) = true) ∧
    (POrd.ltB (Brand.unchecked_from_inner v1 : Brand T Inner)
        (Brand.unchecked_from_inner v2) = true ↔ POrd.ltB v1 v2 = true) ∧
    ((Brand.unchecked_from_inner v1 : Brand T Inner) ==
        Brand.unchecked_from_inner v2) =
      ((Brand.unchecked_from_inner v1 : Brand T2 Inner) ==
        Brand.unchecked_from_inner v2) :=
  ⟨Iff.rfl, Iff.rfl, rfl⟩

/-- Claim C5: serializing a Brand produces output identical to serializing
its inner value directly; deserialization parses the wire data as Inner and
wraps the result with the unchecked constructor; hence when the inner codec
round-trips a value, the Brand round trip reproduces that inner value
exactly. -/
theorem c5_serde_passthrough_roundtrip (T Inner : Type) [Ser Inner] [De Inner]
    (v : Inner)
    (h : (De.deserialize (Ser.serialize v) : Except DeErr Inner) = Except.ok v) :
    Ser.serialize (Brand.unchecked_from_inner v : Brand T Inner) =
      Ser.serialize v ∧
    (∀ w : Wire, (De.deserialize w : Except DeErr (Brand T Inner)) =
      Except.map Brand.unchecked_from_inner (De.deserialize w)) ∧
    Except.map Brand.into_inner
      (De.deserialize
          (Ser.serialize (Brand.unchecked_from_inner v : Brand T Inner)) :
        Except DeErr (Brand T Inner)) = Except.ok v := by
  refine ⟨rfl, fun w => rfl, ?_⟩
  show Except.map Brand.into_inner
      (Except.map Brand.unchecked_from_inner
        (De.deserialize (Ser.serialize v))) = Except.ok v
  rw [h]
  rfl

/-- Witness for C5, at the concrete string codec and the non-ASCII value
from the repository test: the inner codec round-trips the string, and the
Brand round trip reproduces it exactly. -/
theorem c5_serde_witness :
    (De.deserialize (Ser.serialize "olá") : Except DeErr String) =
      Except.ok "olá" ∧
    Except.map Brand.into_inner
      (De.deserialize
          (Ser.serialize
            (Brand.unchecked_from_inner "olá" : Brand BrandedTestIdTag String)) :
        Except DeErr (Brand BrandedTestIdTag String)) = Except.ok "olá" :=
  ⟨rfl,
   (c5_serde_passthrough_roundtrip BrandedTestIdTag String "olá" rfl).2.2⟩

/-- Claim C6: the only runtime failures of the adapters are exactly those
of the inner codec, propagated unchanged (the serde deserializer and the
sqlx decoder fail with error e exactly when the inner one does), and the
unchecked constructor always succeeds and performs no validation. -/
theorem c6_error_passthrough (T Inner : Type) [De Inner] [SqlxDecode Inner] :
    (∀ (w : Wire) (e : DeErr),
      (De.deserialize w : Except DeErr (Brand T Inner)) = Except.error e ↔
        (De.deserialize w : Except DeErr Inner) = Except.error e) ∧
    (∀ (v : ValueRef) (e : BoxError),
      (SqlxDecode.decode v : Except BoxError (Brand T Inner)) = Except.error e ↔
        (SqlxDecode.decode v : Except BoxError Inner) = Except.error e) ∧
    (∀ x : Inner, (Brand.unchecked_from_inner x : Brand T Inner).into_inner = x) := by
  refine ⟨fun w e => ?_, fun v e => ?_, fun x => rfl⟩
  · exact except_map_error_iff Brand.unchecked_from_inner (De.deserialize w) e
  · exact except_bind_ok_error_iff Brand.unchecked_from_inner (SqlxDecode.decode v) e

/-- Claim C7: hashing a Brand feeds exactly the inner value to the hasher,
so whenever the inner hash respects inner equality and v1 == v2, hashing
the brands of v1 and v2 from the same hasher state produces equal states. -/
theorem c7_hash_respects_eq (T Inner : Type) [BEq Inner] [HashC Inner]
    (st : HState) (v1 v2 : Inner)
    (hlaw : ∀ a b : Inner, (a == b) = true → HashC.hashW a st = HashC.hashW b st)
    (hv : (v1 == v2) = true) :
    HashC.hashW (Brand.unchecked_from_inner v1 : Brand T Inner) st =
      HashC.hashW (Brand.unchecked_from_inner v2 : Brand T Inner) st :=
  hlaw v1 v2 hv

/-- Concrete hasher for integers, used only by the hashing witness: append
the absolute value to the word stream. -/
instance : HashC Int where
  hashW n st := st ++ [n.natAbs]

/-- Witness for C7 at concrete integers with a concrete inner hasher. -/
theorem c7_hash_witness :
    ((10 : Int) == 10) = true ∧
    HashC.hashW (Brand.unchecked_from_inner 10 : Brand BrandedTestIdTag Int) [] =
      HashC.hashW (Brand.unchecked_from_inner 10 : Brand BrandedTestIdTag Int) [] :=
  ⟨by decide,
   c7_hash_respects_eq BrandedTestIdTag Int [] 10 10
     (fun a b hab => by rw [eq_of_beq hab]) (by decide)⟩

/-- Claim C8: the default Brand value wraps the inner default with no
validation: extracting it returns exactly the inner default. -/
theorem c8_default_wraps_inner_default (T Inner : Type) [DefaultC Inner] :
    (DefaultC.default : Brand T Inner).into_inner = (DefaultC.default : Inner) :=
  rfl

/-- Claim C9: rebuilding a Brand from its extracted inner value yields the
same Brand, and extracting from a freshly built Brand yields the original
inner value: the two round trips make Brand isomorphic to Inner. -/
theorem c9_brand_inner_isomorphism (T Inner : Type) (b : Brand T Inner) (v : Inner) :
    Brand.unchecked_from_inner b.into_inner = b ∧
    (Brand.unchecked_from_inner v : Brand T Inner).into_inner = v :=
  ⟨rfl, rfl⟩

/-- Claim C10: the borrowed view reads exactly the stored inner value, and
after writing x through the mutable view, extraction returns x. -/
theorem c10_reference_views (T Inner : Type) (v x : Inner) (b : Brand T Inner) :
    (Brand.unchecked_from_inner v : Brand T Inner).as_ref = v ∧
    (b.write_via_as_mut x).into_inner = x :=
  ⟨rfl, rfl⟩
